import Mathlib

/-!
Shallow embedding of the Secchiware repository (a command-and-control service
for a distributed security-testing framework) together with proofs settling
the frozen claims about its specification.

Embedded source files:
  * src/common/test_utils.py  - the test framework library: the `test`
    decorator, `TestSet.run`, and the package archive decompression
    `uncompress_test_packages`.
  * src/c2/c2.py              - the C2 Flask service: the request gates
    (`check_digest_header`, `check_authorization_header`, `check_is_json`,
    `check_registered`) and the routes `add_environment`,
    `remove_environment`, `list_environments`, `get_environment_info`,
    `list_installed_test_sets`, `execute_tests`, `upload_test_sets`.
  * src/test_sets_dev/linux/linux.py - the reference plugin
    `MonitoringSet.is_tracer_attached`.

Modelling conventions: Python runtime values inspected by the test framework
are an inductive `PyVal`; JSON request bodies are an inductive `Json` with
integers for JSON numbers; Python dicts are insertion-ordered association
lists; exceptions are `Except`/`Option`; the SHA-256 digest of a body is an
uninterpreted function parameter `digestOf`; the outcome of the signature
verification performed by the absent `signatures` module is abstracted by a
boolean field of the request (see `check_authorization_header`).  Error
message strings are close paraphrases of the source messages with
punctuation stripped.
-/

/-- Model of a Python runtime value as far as the test framework inspects
one: the return value of a test method is checked with isinstance against
int and tuple, its first component against int and its second against dict.
Python dicts are modelled as insertion-ordered association lists with string
keys, which is the only key type the embedded code constructs. -/
inductive PyVal where
  | int (n : Int)
  | str (s : String)
  | tuple (xs : List PyVal)
  | dict (entries : List (String × PyVal))
  | pynone

/-- Embedding of the wrapper produced by the `test(name, description)`
decorator (src/common/test_utils.py, lines 51-78).  `result` is the raw
return value of the decorated method; the wrapper builds the report dict in
insertion order (result_code, optional additional_info, test_name,
test_description) or raises InvalidTestMethod, modelled as `Except.error`
carrying the exception message. -/
def test_wrapper (name description : String) (result : PyVal) :
    Except String (List (String × PyVal)) :=
  match result with
  | .int n =>
    .ok [("result_code", .int n), ("test_name", .str name),
         ("test_description", .str description)]
  | .tuple [r0, r1] =>
    match r0 with
    | .int n =>
      match r1 with
      | .dict d =>
        .ok [("result_code", .int n), ("additional_info", .dict d),
             ("test_name", .str name), ("test_description", .str description)]
      | _ => .error "Second return value is not a dictionary."
    | _ => .error "Result code is not an integer."
  | .tuple _ => .error "Incorrect number of return values."
  | _ => .error "Invalid return type."

/-- A method marked as a test inside a test-set instance, reduced to what the
run loop observes: the name and description fixed at decoration time and the
raw value the method body returns when invoked (test methods take no
arguments). -/
structure TestMethod where
  name : String
  description : String
  ret : PyVal

/-- Embedding of `TestSet.run` (src/common/test_utils.py, lines 112-128):
every discovered test method is invoked in order; a report is appended on
success, and an InvalidTestMethod raised by the wrapper is printed and the
method is skipped without aborting the loop. -/
def TestSet.run : List TestMethod → List (List (String × PyVal))
  | [] => []
  | m :: rest =>
    match test_wrapper m.name m.description m.ret with
    | .ok report => report :: TestSet.run rest
    | .error _ => TestSet.run rest

/-- Spec-side predicate: the return shapes admitted by the test contract
(a bare int, or a pair of an int and a dict). -/
def conformingResult : PyVal → Bool
  | .int _ => true
  | .tuple [.int _, .dict _] => true
  | _ => false

/-- Spec-side description of the report record produced for a conforming
raw result (unused branch for non-conforming values). -/
def conformingReport (name description : String) : PyVal → List (String × PyVal)
  | .int n =>
    [("result_code", .int n), ("test_name", .str name),
     ("test_description", .str description)]
  | .tuple [.int n, .dict d] =>
    [("result_code", .int n), ("additional_info", .dict d),
     ("test_name", .str name), ("test_description", .str description)]
  | _ => []

/-- Helper for Python `str.startswith`: prefix test on the character lists. -/
def pyStartswith (s pre : String) : Bool :=
  pre.data.isPrefixOf s.data

/-- Helper for Python `str.endswith`: suffix test on the character lists. -/
def pyEndswith (s suf : String) : Bool :=
  suf.data.isSuffixOf s.data

/-- Accumulator loop for Python `str.split()` with no separator: split on
runs of whitespace, producing no empty tokens. -/
def splitWsAux : List Char → List Char → List (List Char)
  | [], acc => if acc.isEmpty then [] else [acc.reverse]
  | c :: rest, acc =>
    if c.isWhitespace then
      if acc.isEmpty then splitWsAux rest []
      else acc.reverse :: splitWsAux rest []
    else splitWsAux rest (c :: acc)

/-- Python `str.split()` with no separator. -/
def pySplit (s : String) : List String :=
  (splitWsAux s.data []).map String.mk

/-- Numeric value of a list of decimal digit characters. -/
def digitsVal (cs : List Char) : Nat :=
  cs.foldl (fun a c => a * 10 + (c.toNat - 48)) 0

/-- Model of Python `int(s)` on a whitespace-free token: an optional sign
followed by at least one decimal digit; anything else raises ValueError,
modelled as `none`. -/
def pyParseInt (s : String) : Option Int :=
  match s.data with
  | [] => none
  | '-' :: rest =>
    if rest.isEmpty || !(rest.all Char.isDigit) then none
    else some (-(digitsVal rest : Int))
  | '+' :: rest =>
    if rest.isEmpty || !(rest.all Char.isDigit) then none
    else some (digitsVal rest : Int)
  | cs =>
    if cs.all Char.isDigit then some (digitsVal cs : Int) else none

/-- Embedding of `MonitoringSet.is_tracer_attached`
(src/test_sets_dev/linux/linux.py, lines 8-17) applied to the lines of
/proc/self/status.  The for loop leaves `line` bound to the first line
starting with "TracerPid", or to the last line read when no line matches
(Python leaks the loop variable); an empty file leaves `line` unbound and
the subsequent use raises NameError.  The pid is the last whitespace token
of that line converted with `int`; any raised exception is modelled as
`none`. -/
def is_tracer_attached (lines : List String) : Option PyVal :=
  match (match lines.find? (fun l => pyStartswith l "TracerPid") with
         | some l => some l
         | none => lines.getLast?) with
  | none => none
  | some line =>
    match (pySplit line).getLast? with
    | none => none
    | some tok =>
      match pyParseInt tok with
      | none => none
      | some pid =>
        some (.tuple [.int (if pid = 0 then 1 else -1),
                      .dict [("found_pid", .int pid)]])

/-- A member of a tar archive as far as `uncompress_test_packages` inspects
it: its (slash-separated, already normalised) name and whether it is a
directory entry. -/
structure TarInfo where
  name : String
  isDir : Bool
  deriving DecidableEq

/-- Embedding of the inner helper `member_is_package`
(src/common/test_utils.py, lines 359-381): `tar.getmember` succeeds exactly
when some member of the archive has the name `member.name ++ "/__init__.py"`. -/
def member_is_package (members : List TarInfo) (member : TarInfo) : Bool :=
  members.any (fun x => x.name == member.name ++ "/__init__.py")

/-- The top-level test of the validation loop:
`member.name.count("/") == 0`. -/
def topLevel (member : TarInfo) : Bool :=
  member.name.data.count '/' == 0

/-- The member loop of `uncompress_test_packages`
(src/common/test_utils.py, lines 384-390): walk the members in archive
order, raise ValueError at the first top-level member that is not a
directory with an `__init__.py` entry, and otherwise collect the names of
the top-level members in order. -/
def uncompress_loop (tar : List TarInfo) : List TarInfo → Except String (List String)
  | [] => .ok []
  | member :: rest =>
    if topLevel member then
      if member.isDir && member_is_package tar member then
        match uncompress_loop tar rest with
        | .ok names => .ok (member.name :: names)
        | .error e => .error e
      else
        .error ("Found top level member " ++ member.name ++ " is not a package.")
    else
      uncompress_loop tar rest

/-- Embedding of `uncompress_test_packages` (src/common/test_utils.py,
lines 335-392).  The destination root is modelled by the list of entry
names present under it; `tar.extractall` appends the names of every member
of the archive.  The validation loop runs over the whole archive before the
single `extractall` call, so an error leaves the destination untouched.
Returns the ValueError or the list of top-level package names, paired with
the resulting destination contents. -/
def uncompress_test_packages (file_members : List TarInfo) (tests_root : List String) :
    Except String (List String) × List String :=
  match uncompress_loop file_members file_members with
  | .error e => (.error e, tests_root)
  | .ok new_packages => (.ok new_packages, tests_root ++ file_members.map (·.name))

/-- Model of a JSON value as delivered by `request.json`; JSON numbers are
restricted to the integers (the embedded code only ever consumes the port
as an integer and all other fields opaquely). -/
inductive Json where
  | null
  | bool (b : Bool)
  | num (n : Int)
  | str (s : String)
  | arr (xs : List Json)
  | obj (fields : List (String × Json))

/-- Lookup in the field list of a JSON object (Python `d[k]` on a dict,
`none` modelling the KeyError). -/
def objFind : List (String × Json) → String → Option Json
  | [], _ => none
  | (k0, v0) :: rest, k => if k0 = k then some v0 else objFind rest k

/-- Python subscription `v[k]` with a string key: succeeds only on a dict. -/
def jsonLookup : Json → String → Option Json
  | .obj fields, k => objFind fields k
  | _, _ => none

/-- Python subscription `v[i]` with a non-negative integer index: succeeds
on a list (IndexError out of range) and on a string (yielding a one-character
string); raises TypeError, modelled as `none`, on every other value. -/
def pyIndex : Json → Nat → Option Json
  | .arr xs, i => xs.get? i
  | .str s, i => (s.data.get? i).map (fun c => .str (String.mk [c]))
  | _, _ => none

/-- Python `int(v)` applied to a JSON value: an int is returned unchanged, a
bool is its numeric value, a string is parsed, everything else raises,
modelled as `none`. -/
def pyToInt : Json → Option Int
  | .num n => some n
  | .bool b => some (if b then 1 else 0)
  | .str s => pyParseInt s
  | _ => none

/-- The hashable subset of JSON values, usable as Python dict keys: the key
type of the in-memory `environments` registry, which is keyed by the raw
`ip` and `port` values of the registration body.  Lists and objects are
unhashable (`toKey` returns `none` and the assignment raises TypeError). -/
inductive JKey where
  | null
  | bool (b : Bool)
  | num (n : Int)
  | str (s : String)
  deriving DecidableEq

/-- Conversion of a JSON value to a Python dict key. -/
def toKey : Json → Option JKey
  | .null => some .null
  | .bool b => some (.bool b)
  | .num n => some (.num n)
  | .str s => some (.str s)
  | _ => none

/-- Serialization of a Python dict key by `json.dumps` (Flask `jsonify`):
string keys verbatim, other scalar keys coerced to their JSON literal text. -/
def jsonKeyStr : JKey → String
  | .str s => s
  | .num n => toString n
  | .bool b => if b then "true" else "false"
  | .null => "null"

/-- Lookup in an insertion-ordered Python dict. -/
def dictLookup {β : Type} : List (JKey × β) → JKey → Option β
  | [], _ => none
  | (k0, v0) :: rest, k => if k0 = k then some v0 else dictLookup rest k

/-- Assignment `d[k] = v` in an insertion-ordered Python dict: an existing
key is updated in place, a new key is appended at the end. -/
def dictSet {β : Type} : List (JKey × β) → JKey → β → List (JKey × β)
  | [], k, v => [(k, v)]
  | (k0, v0) :: rest, k, v =>
    if k0 = k then (k, v) :: rest else (k0, v0) :: dictSet rest k v

/-- Deletion `del d[k]` in an insertion-ordered Python dict. -/
def dictRemove {β : Type} : List (JKey × β) → JKey → List (JKey × β)
  | [], _ => []
  | (k0, v0) :: rest, k =>
    if k0 = k then dictRemove rest k else (k0, v0) :: dictRemove rest k

/-- Two decimal digit characters of a number (the behaviour of the SQLite
format directives %m, %d, %H, %M, %S for in-range values). -/
def pad2 (n : Nat) : List Char :=
  [Nat.digitChar (n / 10 % 10), Nat.digitChar (n % 10)]

/-- Four decimal digit characters of a number (the SQLite %Y directive for
years below 10000, the range reachable before the year 10000 epoch bound). -/
def pad4 (n : Nat) : List Char :=
  [Nat.digitChar (n / 1000 % 10), Nat.digitChar (n / 100 % 10),
   Nat.digitChar (n / 10 % 10), Nat.digitChar (n % 10)]

/-- Conversion of a count of days since 1970-01-01 to a (year, month, day)
civil date, the standard era-based algorithm used by calendar conversions
(and by SQLite for its unixepoch rendering). -/
def civilFromDays (z0 : Nat) : Nat × Nat × Nat :=
  let z := z0 + 719468
  let era := z / 146097
  let doe := z % 146097
  let yoe := (doe - doe / 1460 + doe / 36524 - doe / 146096) / 365
  let y := yoe + era * 400
  let doy := doe - (365 * yoe + yoe / 4 - yoe / 100)
  let mp := (5 * doy + 2) / 153
  let d := doy - (153 * mp + 2) / 5 + 1
  let m := if mp < 10 then mp + 3 else mp - 9
  (if m ≤ 2 then y + 1 else y, m, d)

/-- Model of the SQLite expression
`strftime('%Y-%m-%dT%H:%M:%SZ', session_start, 'unixepoch')` used by
`add_environment` to read back the session start timestamp: the Unix epoch
second count rendered as an ISO-8601 UTC timestamp. -/
def strftimeISO (t : Nat) : String :=
  let days := t / 86400
  let secs := t % 86400
  let ymd := civilFromDays days
  String.mk (pad4 ymd.1 ++ ['-'] ++ pad2 ymd.2.1 ++ ['-'] ++ pad2 ymd.2.2 ++
    ['T'] ++ pad2 (secs / 3600) ++ [':'] ++ pad2 (secs % 3600 / 60) ++
    [':'] ++ pad2 (secs % 60) ++ ['Z'])

/-- Spec-side shape check for an ISO-8601 UTC timestamp of the form
YYYY-MM-DDTHH:MM:SSZ. -/
def isISO8601Timestamp (s : String) : Bool :=
  match s.data with
  | [y1, y2, y3, y4, '-', m1, m2, '-', d1, d2, 'T',
     h1, h2, ':', mi1, mi2, ':', s1, s2, 'Z'] =>
    y1.isDigit && y2.isDigit && y3.isDigit && y4.isDigit &&
    m1.isDigit && m2.isDigit && d1.isDigit && d2.isDigit &&
    h1.isDigit && h2.isDigit && mi1.isDigit && mi2.isDigit &&
    s1.isDigit && s2.isDigit
  | _ => false

/-- The in-memory record the C2 service keeps per registered environment:
the freshly inserted session row id and the formatted session start read
back from the database. -/
structure EnvEntry where
  session_id : Nat
  session_start : String
  deriving DecidableEq

/-- A row of the `session` table (src/c2/c2.py, lines 371-389): the
fourteen columns inserted by `add_environment` plus the defaulted
`session_start` epoch timestamp.  The row id is the position in the table
plus one. -/
structure SessionRow where
  env_ip : Json
  env_port : Int
  env_platform : Json
  env_node : Json
  env_os_system : Json
  env_os_release : Json
  env_os_version : Json
  env_hw_machine : Json
  env_hw_processor : Json
  env_py_build_no : Json
  env_py_build_date : Json
  env_py_compiler : Json
  env_py_implementation : Json
  env_py_version : Json
  session_start : Nat

/-- The mutable state of the C2 service: the in-memory `environments`
registry (a dict keyed by ip then port), the rows of the `session` table in
insertion order, the entry names under the test-set root directory, and the
names of the packages indexed by the `available` catalogue. -/
structure C2State where
  environments : List (JKey × List (JKey × EnvEntry))
  sessions : List SessionRow
  tests_path : List String
  available : List String

/-- An HTTP response of the service: the status code, the error message
rendered by the registered error handlers as `{"error": message}`, and an
optional JSON payload for 200 responses. -/
structure Response where
  status : Nat
  error : Option String := none
  payload : Option Json := none

/-- The JSON error response produced by the error handlers
(src/c2/c2.py, lines 89-118). -/
def errorResponse (status : Nat) (message : String) : Response :=
  { status := status, error := some message }

/-- An inbound HTTP request as far as the embedded routes inspect one.
`authValid` abstracts the outcome of
`signatures.verify_authorization_header` - the signatures module is not
part of the sources, so per the spec the verification is a pure predicate
of the request that the caller maps to 401 when false.  `jsonBody` is the
parse of the body when it is syntactically valid JSON. -/
structure HttpRequest where
  mimetype : String
  digestHeader : Option String
  hasAuthHeader : Bool
  authValid : Bool
  bodyBytes : List Nat
  jsonBody : Option Json
  files : List (String × List TarInfo)

/-- Everything after the first '=' in a character list (Python
`s.split("=", 1)[1]` for a string containing an '='). -/
def afterFirstEqChar : List Char → List Char
  | [] => []
  | c :: rest => if c = '=' then rest else afterFirstEqChar rest

/-- Python `s.split("=", 1)[1]`. -/
def splitEqTail (s : String) : String :=
  String.mk (afterFirstEqChar s.data)

/-- Embedding of `check_digest_header` (src/c2/c2.py, lines 51-58): the
Digest header must be present, start with "sha-256=", and its value part
must equal the base64 SHA-256 digest of the request body, computed by the
uninterpreted `digestOf`.  Returns the 400 response aborting the handler,
or `none` when the check passes. -/
def check_digest_header (digestOf : List Nat → String) (req : HttpRequest) :
    Option Response :=
  match req.digestHeader with
  | none => some (errorResponse 400 "Digest header mandatory.")
  | some d =>
    if !pyStartswith d "sha-256=" then
      some (errorResponse 400 "Digest algorithm should be sha-256.")
    else if digestOf req.bodyBytes ≠ splitEqTail d then
      some (errorResponse 400 "Given digest does not match content.")
    else none

/-- Embedding of `check_authorization_header` (src/c2/c2.py, lines 60-77).
Modelled from the spec for the absent signatures module: with no
Authorization header the handler aborts 401; otherwise the verification
outcome (including its failure by exception) is abstracted by
`req.authValid`, and a false outcome aborts 401. -/
def check_authorization_header (req : HttpRequest) : Option Response :=
  if !req.hasAuthHeader then
    some (errorResponse 401 "No Authorization header found in request.")
  else if !req.authValid then
    some (errorResponse 401 "Invalid signature.")
  else none

/-- Flask `request.is_json`: the declared content type is application/json
or a +json suffixed type. -/
def flask_is_json (mimetype : String) : Bool :=
  mimetype == "application/json" || pyEndswith mimetype "+json"

/-- Embedding of `check_is_json` (src/c2/c2.py, lines 42-49): aborts 415
when the content type of the request is not a JSON type. -/
def check_is_json (req : HttpRequest) : Option Response :=
  if flask_is_json req.mimetype then none
  else some (errorResponse 415 "Content Type is not application/json")

/-- The registration test of `check_registered` (src/c2/c2.py, line 38):
`ip in environments and port in environments[ip]` with the path segments,
which are Python strings, compared against the registry keys. -/
def registered (envs : List (JKey × List (JKey × EnvEntry))) (ip port : String) :
    Bool :=
  match dictLookup envs (.str ip) with
  | some inner => (dictLookup inner (.str port)).isSome
  | none => false

/-- Embedding of `check_registered` (src/c2/c2.py, lines 25-40): aborts 404
when the (ip, port) pair of the route path is not a currently registered
environment. -/
def check_registered (envs : List (JKey × List (JKey × EnvEntry)))
    (ip port : String) : Option Response :=
  if registered envs ip port then none
  else some (errorResponse 404 ("No environment registered for " ++ ip ++ ":" ++ port))

/-- The tuple `to_insert` built by `add_environment` (src/c2/c2.py, lines
143-158) before the database insert: the port converted with `int` and the
twelve platform fields read from the nested body; any failed conversion or
missing field raises an uncaught exception, modelled as `none`, rendered by
Flask as a 500 response.  `now` is the defaulted `session_start` epoch. -/
def buildToInsert (ip port platform_info : Json) (now : Nat) : Option SessionRow :=
  match pyToInt port with
  | none => none
  | some env_port =>
  match jsonLookup platform_info "platform" with
  | none => none
  | some env_platform =>
  match jsonLookup platform_info "node" with
  | none => none
  | some env_node =>
  match jsonLookup platform_info "os" with
  | none => none
  | some osInfo =>
  match jsonLookup osInfo "system" with
  | none => none
  | some env_os_system =>
  match jsonLookup osInfo "release" with
  | none => none
  | some env_os_release =>
  match jsonLookup osInfo "version" with
  | none => none
  | some env_os_version =>
  match jsonLookup platform_info "hardware" with
  | none => none
  | some hw =>
  match jsonLookup hw "machine" with
  | none => none
  | some env_hw_machine =>
  match jsonLookup hw "processor" with
  | none => none
  | some env_hw_processor =>
  match jsonLookup platform_info "python" with
  | none => none
  | some py =>
  match jsonLookup py "build" with
  | none => none
  | some build =>
  match pyIndex build 0 with
  | none => none
  | some env_py_build_no =>
  match pyIndex build 1 with
  | none => none
  | some env_py_build_date =>
  match jsonLookup py "compiler" with
  | none => none
  | some env_py_compiler =>
  match jsonLookup py "implementation" with
  | none => none
  | some env_py_implementation =>
  match jsonLookup py "version" with
  | none => none
  | some env_py_version =>
  some { env_ip := ip, env_port := env_port, env_platform := env_platform,
         env_node := env_node, env_os_system := env_os_system,
         env_os_release := env_os_release, env_os_version := env_os_version,
         env_hw_machine := env_hw_machine, env_hw_processor := env_hw_processor,
         env_py_build_no := env_py_build_no, env_py_build_date := env_py_build_date,
         env_py_compiler := env_py_compiler,
         env_py_implementation := env_py_implementation,
         env_py_version := env_py_version, session_start := now }

/-- Spec-side predicate: the registration body's platform_info carries every
nested field `add_environment` reads. -/
def platformInfoComplete (platform_info : Json) : Bool :=
  (jsonLookup platform_info "platform").isSome &&
  (jsonLookup platform_info "node").isSome &&
  ((jsonLookup platform_info "os").bind (fun os => jsonLookup os "system")).isSome &&
  ((jsonLookup platform_info "os").bind (fun os => jsonLookup os "release")).isSome &&
  ((jsonLookup platform_info "os").bind (fun os => jsonLookup os "version")).isSome &&
  ((jsonLookup platform_info "hardware").bind (fun h => jsonLookup h "machine")).isSome &&
  ((jsonLookup platform_info "hardware").bind (fun h => jsonLookup h "processor")).isSome &&
  (((jsonLookup platform_info "python").bind (fun p => jsonLookup p "build")).bind
    (fun b => pyIndex b 0)).isSome &&
  (((jsonLookup platform_info "python").bind (fun p => jsonLookup p "build")).bind
    (fun b => pyIndex b 1)).isSome &&
  ((jsonLookup platform_info "python").bind (fun p => jsonLookup p "compiler")).isSome &&
  ((jsonLookup platform_info "python").bind (fun p => jsonLookup p "implementation")).isSome &&
  ((jsonLookup platform_info "python").bind (fun p => jsonLookup p "version")).isSome

/-- Embedding of the `POST /environments` handler `add_environment`
(src/c2/c2.py, lines 129-181).  Gate order: digest, Node authorization,
content type; a body that fails to parse as JSON aborts 400 (the Flask
behaviour of `request.json`); the three required keys are checked before
use; `to_insert` is built (an uncaught exception there yields 500 with no
database insert); the session row is inserted and committed; finally the
in-memory registry entry is written under the raw ip and port values of the
body (an unhashable key raises after the commit, so the row survives).
`now` is the database clock at the insert. -/
def add_environment (digestOf : List Nat → String) (req : HttpRequest)
    (now : Nat) (s : C2State) : Response × C2State :=
  match check_digest_header digestOf req with
  | some r => (r, s)
  | none =>
  match check_authorization_header req with
  | some r => (r, s)
  | none =>
  match check_is_json req with
  | some r => (r, s)
  | none =>
  match req.jsonBody with
  | none => (errorResponse 400 "Failed to decode JSON object", s)
  | some body =>
  match jsonLookup body "ip", jsonLookup body "port", jsonLookup body "platform_info" with
  | some ip, some port, some platform_info =>
    (match buildToInsert ip port platform_info now with
     | none => (errorResponse 500 "Internal Server Error", s)
     | some row =>
       let sessions2 := s.sessions ++ [row]
       let session_id := s.sessions.length + 1
       match toKey ip, toKey port with
       | some ki, some kp =>
         let entry : EnvEntry :=
           { session_id := session_id, session_start := strftimeISO now }
         let inner := (dictLookup s.environments ki).getD []
         ({ status := 204 },
          { s with sessions := sessions2,
                   environments := dictSet s.environments ki (dictSet inner kp entry) })
       | _, _ => (errorResponse 500 "Internal Server Error", { s with sessions := sessions2 }))
  | _, _, _ => (errorResponse 400 "One or more keys missing in request body", s)

/-- Embedding of the `DELETE /environments/<ip>/<port>` handler
`remove_environment` (src/c2/c2.py, lines 183-194): Node authorization,
registration check, then removal of the in-memory entry, pruning the ip
entry when its port dict becomes empty.  The session table is untouched. -/
def remove_environment (req : HttpRequest) (ip port : String) (s : C2State) :
    Response × C2State :=
  match check_authorization_header req with
  | some r => (r, s)
  | none =>
  match check_registered s.environments ip port with
  | some r => (r, s)
  | none =>
    let inner := (dictLookup s.environments (.str ip)).getD []
    let inner2 := dictRemove inner (.str port)
    let envs2 :=
      if inner2.isEmpty then dictRemove s.environments (.str ip)
      else dictSet s.environments (.str ip) inner2
    ({ status := 204 }, { s with environments := envs2 })

/-- Serialization of the port dict of one registered ip by json.dumps: keys
coerced to strings, entries become JSON objects. -/
def serializePorts (inner : List (JKey × EnvEntry)) : Json :=
  .obj (inner.map (fun pv =>
    (jsonKeyStr pv.1, .obj [("session_id", .num pv.2.session_id),
                            ("session_start", .str pv.2.session_start)])))

/-- Serialization of the registry by `jsonify(environments)`: dict keys are
coerced to strings by json.dumps, entries become JSON objects. -/
def jsonifyEnvironments (envs : List (JKey × List (JKey × EnvEntry))) : Json :=
  .obj (envs.map (fun kv => (jsonKeyStr kv.1, serializePorts kv.2)))

/-- Embedding of the `GET /environments` handler `list_environments`
(src/c2/c2.py, lines 125-127). -/
def list_environments (s : C2State) : Response :=
  { status := 200, payload := some (jsonifyEnvironments s.environments) }

/-- Embedding of the `GET /environments/<ip>/<port>/info` handler
(src/c2/c2.py, lines 196-208).  The proxied call to the Node is abstracted
by `upstream`: `none` is a ConnectionError, otherwise the status and JSON
body of the Node response. -/
def get_environment_info (ip port : String) (s : C2State)
    (upstream : Option (Nat × Json)) : Response :=
  match check_registered s.environments ip port with
  | some r => r
  | none =>
    match upstream with
    | none => errorResponse 504 "The requested environment could not be reached"
    | some (code, body) =>
      if code = 200 then { status := 200, payload := some body }
      else errorResponse 502 ("Unexpected response from node at " ++ ip ++ ":" ++ port)

/-- Embedding of the `GET /environments/<ip>/<port>/installed` handler
(src/c2/c2.py, lines 210-222), identical in shape to the info route. -/
def list_installed_test_sets (ip port : String) (s : C2State)
    (upstream : Option (Nat × Json)) : Response :=
  match check_registered s.environments ip port with
  | some r => r
  | none =>
    match upstream with
    | none => errorResponse 504 "The requested environment could not be reached"
    | some (code, body) =>
      if code = 200 then { status := 200, payload := some body }
      else errorResponse 502 ("Unexpected response from node at " ++ ip ++ ":" ++ port)

/-- Embedding of the `GET /environments/<ip>/<port>/report` handler
`execute_tests` (src/c2/c2.py, lines 294-318): registration check, then
rejection of unrecognized query keys, then the proxied call abstracted by
`upstream`. -/
def execute_tests (queryKeys : List String) (ip port : String) (s : C2State)
    (upstream : Option (Nat × Json)) : Response :=
  match check_registered s.environments ip port with
  | some r => r
  | none =>
    if queryKeys.any (fun k => !(["packages", "modules", "test_sets"].contains k)) then
      errorResponse 400 "Invalid keys found in query parameters"
    else
      match upstream with
      | none => errorResponse 504 "The requested environment could not be reached"
      | some (code, body) =>
        if code = 200 then { status := 200, payload := some body }
        else if code = 400 then
          errorResponse 500 "Something went wrong when handling the request"
        else errorResponse 502 ("Unexpected response from node at " ++ ip ++ ":" ++ port)

/-- Modelled from the spec: the catalogue refresh after a successful upload
(`test_utils.clean_package`, `test_utils.get_installed_package` and
`OrderedListOfDict.batch_insert` are not present under src), abstracted to
the package names held by the index: an already indexed name keeps its
position, a new name is appended. -/
def batch_insert_names (avail : List String) (newNames : List String) : List String :=
  newNames.foldl (fun acc n => if acc.contains n then acc else acc ++ [n]) avail

/-- Embedding of the `PATCH /test_sets` handler `upload_test_sets`
(src/c2/c2.py, lines 324-351).  Gate order: multipart content type (415),
digest header (400), presence of the packages file part (400), Client
authorization (401); then the archive is decompressed into the test-set
root, any failure there aborting 400 with the root untouched. -/
def upload_test_sets (digestOf : List Nat → String) (req : HttpRequest)
    (s : C2State) : Response × C2State :=
  if req.mimetype ≠ "multipart/form-data" then
    (errorResponse 415 "Invalid request content type", s)
  else
  match check_digest_header digestOf req with
  | some r => (r, s)
  | none =>
  if !req.files.any (fun f => f.1 == "packages") then
    (errorResponse 400 "packages key not found in request body", s)
  else
  match check_authorization_header req with
  | some r => (r, s)
  | none =>
    let archive := ((req.files.find? (fun f => f.1 == "packages")).map (·.2)).getD []
    match uncompress_test_packages archive s.tests_path with
    | (.error _, _) => (errorResponse 400 "Invalid file content", s)
    | (.ok new_packages, extracted) =>
      ({ status := 204 },
       { s with tests_path := extracted,
                available := batch_insert_names s.available new_packages })

theorem test_wrapper_conforming (name description : String) (v : PyVal)
    (h : conformingResult v = true) :
    test_wrapper name description v = .ok (conformingReport name description v) := by
  cases v with
  | int n => rfl
  | str s => simp [conformingResult] at h
  | pynone => simp [conformingResult] at h
  | dict d => simp [conformingResult] at h
  | tuple xs =>
    match xs with
    | [] => simp [conformingResult] at h
    | [a] => cases a <;> simp [conformingResult] at h
    | a :: b :: c :: rest => simp [conformingResult] at h
    | [a, b] =>
      cases a with
      | int n =>
        cases b with
        | dict d => rfl
        | int m => simp [conformingResult] at h
        | str s => simp [conformingResult] at h
        | tuple t => simp [conformingResult] at h
        | pynone => simp [conformingResult] at h
      | str s => simp [conformingResult] at h
      | tuple t => simp [conformingResult] at h
      | dict d => simp [conformingResult] at h
      | pynone => simp [conformingResult] at h

theorem test_wrapper_malformed (name description : String) (v : PyVal)
    (h : conformingResult v = false) :
    ∃ msg, test_wrapper name description v = .error msg := by
  cases v with
  | int n => simp [conformingResult] at h
  | str s => exact ⟨_, rfl⟩
  | pynone => exact ⟨_, rfl⟩
  | dict d => exact ⟨_, rfl⟩
  | tuple xs =>
    match xs with
    | [] => exact ⟨_, rfl⟩
    | [a] => cases a <;> exact ⟨_, rfl⟩
    | a :: b :: c :: rest =>
      exact ⟨"Incorrect number of return values.", by simp [test_wrapper]⟩
    | [a, b] =>
      cases a with
      | int n =>
        cases b with
        | dict d => simp [conformingResult] at h
        | int m => exact ⟨_, rfl⟩
        | str s => exact ⟨_, rfl⟩
        | tuple t => exact ⟨_, rfl⟩
        | pynone => exact ⟨_, rfl⟩
      | str s => exact ⟨_, rfl⟩
      | tuple t => exact ⟨_, rfl⟩
      | dict d => exact ⟨_, rfl⟩
      | pynone => exact ⟨_, rfl⟩

/-- C4: a method decorated with test(name, description) returning a bare int
n yields a report with result_code n, the decoration name and description,
and no additional_info key; returning a pair of an int n and a dict d
additionally yields additional_info d; every other return shape raises
InvalidTestMethod. -/
theorem C4_test_wrapper_contract (name description : String) :
    (∀ n : Int,
      test_wrapper name description (.int n) =
        .ok [("result_code", .int n), ("test_name", .str name),
             ("test_description", .str description)] ∧
      ([("result_code", PyVal.int n), ("test_name", PyVal.str name),
        ("test_description", PyVal.str description)].any
          (fun kv => kv.1 == "additional_info")) = false) ∧
    (∀ (n : Int) (d : List (String × PyVal)),
      test_wrapper name description (.tuple [.int n, .dict d]) =
        .ok [("result_code", .int n), ("additional_info", .dict d),
             ("test_name", .str name), ("test_description", .str description)]) ∧
    (∀ v : PyVal, conformingResult v = false →
      ∃ msg, test_wrapper name description v = .error msg) := by
  refine ⟨fun n => ⟨rfl, by simp⟩, fun n d => rfl, ?_⟩
  exact fun v h => test_wrapper_malformed name description v h

theorem C4_test_wrapper_contract_witness :
    ∃ msg, test_wrapper "n" "d" (.str "oops") = .error msg :=
  (C4_test_wrapper_contract "n" "d").2.2 (.str "oops") (by decide)

/-- C5: TestSet.run produces, in order, exactly the reports of the marked
test methods whose return value satisfies the contract; a method raising
InvalidTestMethod is skipped without stopping the run; in particular a set
with one conforming test (returning an int) and one non-conforming test
(returning a string) yields exactly the one report of the conforming test. -/
theorem C5_run_skips_malformed :
    (∀ ts : List TestMethod,
      TestSet.run ts =
        (ts.filter (fun t => conformingResult t.ret)).map
          (fun t => conformingReport t.name t.description t.ret)) ∧
    TestSet.run [⟨"t1", "d1", .int 1⟩, ⟨"t2", "d2", .str "oops"⟩] =
      [[("result_code", .int 1), ("test_name", .str "t1"),
        ("test_description", .str "d1")]] := by
  constructor
  · intro ts
    induction ts with
    | nil => rfl
    | cons m rest ih =>
      cases h : conformingResult m.ret with
      | true =>
        rw [TestSet.run, test_wrapper_conforming m.name m.description m.ret h]
        simp [List.filter_cons, h, ih]
      | false =>
        obtain ⟨msg, hm2⟩ := test_wrapper_malformed m.name m.description m.ret h
        rw [TestSet.run, hm2]
        simp [List.filter_cons, h, ih]
  · simp [TestSet.run, test_wrapper]

/-- C10: given a status pseudo-file whose first TracerPid line carries an
integer last token pid, the reference test always returns the pair form with
additional_info containing found_pid = pid, result code 1 exactly when pid
is 0 and -1 otherwise, and wrapping it through its decoration yields the
corresponding report. -/
theorem C10_is_tracer_attached_pair (lines : List String) (line tok : String)
    (pid : Int)
    (hfind : lines.find? (fun l => pyStartswith l "TracerPid") = some line)
    (htok : (pySplit line).getLast? = some tok)
    (hpid : pyParseInt tok = some pid) :
    is_tracer_attached lines =
      some (.tuple [.int (if pid = 0 then 1 else -1),
                    .dict [("found_pid", .int pid)]]) ∧
    (pid = 0 → is_tracer_attached lines =
      some (.tuple [.int 1, .dict [("found_pid", .int pid)]])) ∧
    (pid ≠ 0 → is_tracer_attached lines =
      some (.tuple [.int (-1), .dict [("found_pid", .int pid)]])) ∧
    test_wrapper "Is tracer attached?" "Looks for a TracerPid different than 0."
        ((is_tracer_attached lines).getD .pynone) =
      .ok [("result_code", .int (if pid = 0 then 1 else -1)),
           ("additional_info", .dict [("found_pid", .int pid)]),
           ("test_name", .str "Is tracer attached?"),
           ("test_description", .str "Looks for a TracerPid different than 0.")] := by
  have h1 : is_tracer_attached lines =
      some (.tuple [.int (if pid = 0 then 1 else -1),
                    .dict [("found_pid", .int pid)]]) := by
    simp [is_tracer_attached, hfind, htok, hpid]
  refine ⟨h1, ?_, ?_, ?_⟩
  · intro h0
    simp [h1, h0]
  · intro h0
    simp [h1, h0]
  · rw [h1]
    rfl

theorem C10_is_tracer_attached_pair_witness :
    is_tracer_attached ["Name:\tcat", "TracerPid:\t7"] =
      some (.tuple [.int (-1), .dict [("found_pid", .int 7)]]) :=
  (C10_is_tracer_attached_pair ["Name:\tcat", "TracerPid:\t7"]
    "TracerPid:\t7" "7" 7 (by decide) (by decide) (by decide)).2.2.1 (by decide)

theorem uncompress_loop_ok (tar : List TarInfo) (l : List TarInfo)
    (h : ∀ m ∈ l, topLevel m = true →
      m.isDir = true ∧ member_is_package tar m = true) :
    uncompress_loop tar l = .ok ((l.filter topLevel).map (·.name)) := by
  induction l with
  | nil => rfl
  | cons m rest ih =>
    have hrest : ∀ x ∈ rest, topLevel x = true →
        x.isDir = true ∧ member_is_package tar x = true :=
      fun x hx => h x (List.mem_cons_of_mem _ hx)
    cases hm : topLevel m with
    | true =>
      obtain ⟨h1, h2⟩ := h m (List.mem_cons_self _ _) hm
      simp [uncompress_loop, hm, h1, h2, ih hrest, List.filter_cons]
    | false =>
      simp [uncompress_loop, hm, ih hrest, List.filter_cons]

theorem uncompress_loop_error (tar : List TarInfo) (l : List TarInfo)
    (h : ∃ m ∈ l, topLevel m = true ∧
      ¬(m.isDir = true ∧ member_is_package tar m = true)) :
    ∃ e, uncompress_loop tar l = .error e := by
  induction l with
  | nil => simp at h
  | cons m rest ih =>
    cases hm : topLevel m with
    | true =>
      by_cases hg : m.isDir = true ∧ member_is_package tar m = true
      · obtain ⟨x, hx, hxtop, hxbad⟩ := h
        rcases List.mem_cons.mp hx with rfl | hx2
        · exact absurd hg hxbad
        · obtain ⟨e, he⟩ := ih ⟨x, hx2, hxtop, hxbad⟩
          exact ⟨e, by simp [uncompress_loop, hm, hg.1, hg.2, he]⟩
      · refine ⟨"Found top level member " ++ m.name ++ " is not a package.", ?_⟩
        have hb : (m.isDir && member_is_package tar m) = false := by
          cases hd : m.isDir with
          | false => simp
          | true =>
            cases hp : member_is_package tar m with
            | false => simp
            | true => exact absurd ⟨hd, hp⟩ hg
        simp [uncompress_loop, hm, hb]
    | false =>
      obtain ⟨x, hx, hxtop, hxbad⟩ := h
      rcases List.mem_cons.mp hx with rfl | hx2
      · rw [hm] at hxtop; exact absurd hxtop (by simp)
      · obtain ⟨e, he⟩ := ih ⟨x, hx2, hxtop, hxbad⟩
        exact ⟨e, by simp [uncompress_loop, hm, he]⟩

/-- C1: decompression validates every top-level member of the archive before
any extraction: if some top-level member is not a directory with an
__init__.py entry the operation raises ValueError and the destination root
is unchanged; if every top-level member passes the check, the whole archive
is extracted under the destination root and the returned list is exactly
the names of the top-level members of the archive in order. -/
theorem C1_uncompress_all_or_nothing (members : List TarInfo) (root : List String) :
    ((∃ m ∈ members, topLevel m = true ∧
        ¬(m.isDir = true ∧ member_is_package members m = true)) →
      (∃ e, (uncompress_test_packages members root).1 = .error e) ∧
      (uncompress_test_packages members root).2 = root) ∧
    ((∀ m ∈ members, topLevel m = true →
        m.isDir = true ∧ member_is_package members m = true) →
      (uncompress_test_packages members root).1 =
        .ok ((members.filter topLevel).map (·.name)) ∧
      (uncompress_test_packages members root).2 = root ++ members.map (·.name)) := by
  constructor
  · intro h
    obtain ⟨e, he⟩ := uncompress_loop_error members members h
    exact ⟨⟨e, by simp [uncompress_test_packages, he]⟩,
           by simp [uncompress_test_packages, he]⟩
  · intro h
    have hok := uncompress_loop_ok members members h
    exact ⟨by simp [uncompress_test_packages, hok],
           by simp [uncompress_test_packages, hok]⟩

theorem C1_uncompress_all_or_nothing_witness :
    ((∃ e, (uncompress_test_packages [⟨"pkg", false⟩] ["old"]).1 = .error e) ∧
      (uncompress_test_packages [⟨"pkg", false⟩] ["old"]).2 = ["old"]) ∧
    ((uncompress_test_packages [⟨"pkg", true⟩, ⟨"pkg/__init__.py", false⟩]
        ["old"]).1 = .ok ["pkg"] ∧
      (uncompress_test_packages [⟨"pkg", true⟩, ⟨"pkg/__init__.py", false⟩]
        ["old"]).2 = ["old", "pkg", "pkg/__init__.py"]) := by
  constructor
  · exact (C1_uncompress_all_or_nothing [⟨"pkg", false⟩] ["old"]).1
      ⟨⟨"pkg", false⟩, by decide, by decide, by decide⟩
  · have h := (C1_uncompress_all_or_nothing
      [⟨"pkg", true⟩, ⟨"pkg/__init__.py", false⟩] ["old"]).2 (by decide)
    exact ⟨by rw [h.1]; rfl, h.2⟩

theorem digitChar_mod_isDigit (k : Nat) : (Nat.digitChar (k % 10)).isDigit = true := by
  have h : k % 10 < 10 := Nat.mod_lt _ (by norm_num)
  interval_cases h2 : (k % 10) <;> decide

theorem strftimeISO_shape (t : Nat) : isISO8601Timestamp (strftimeISO t) = true := by
  simp [strftimeISO, pad2, pad4, isISO8601Timestamp, digitChar_mod_isDigit]

theorem dictLookup_dictSet_self {β : Type} (l : List (JKey × β)) (k : JKey) (v : β) :
    dictLookup (dictSet l k v) k = some v := by
  induction l with
  | nil => simp [dictSet, dictLookup]
  | cons kv rest ih =>
    obtain ⟨k0, v0⟩ := kv
    by_cases h : k0 = k
    · simp [dictSet, dictLookup, h]
    · simp [dictSet, dictLookup, h, ih]

theorem dictLookup_none_of_keystr {β : Type} (l : List (JKey × β)) (ip : String)
    (h : ∀ kv ∈ l, jsonKeyStr kv.1 ≠ ip) :
    dictLookup l (.str ip) = none := by
  induction l with
  | nil => rfl
  | cons kv rest ih =>
    obtain ⟨k0, v0⟩ := kv
    have hk : k0 ≠ JKey.str ip := by
      intro he
      exact h (k0, v0) (List.mem_cons_self _ _) (by rw [he]; rfl)
    simp [dictLookup, hk, ih fun x hx => h x (List.mem_cons_of_mem _ hx)]

theorem dictSet_eq_append {β : Type} (l : List (JKey × β)) (k : JKey) (v : β)
    (h : dictLookup l k = none) :
    dictSet l k v = l ++ [(k, v)] := by
  induction l with
  | nil => rfl
  | cons kv rest ih =>
    obtain ⟨k0, v0⟩ := kv
    by_cases hk : k0 = k
    · simp [dictLookup, hk] at h
    · rw [dictLookup, if_neg hk] at h
      simp [dictSet, hk, ih h]

theorem dictRemove_append_fresh {β : Type} (l : List (JKey × β)) (k : JKey) (v : β)
    (h : dictLookup l k = none) :
    dictRemove (l ++ [(k, v)]) k = l := by
  induction l with
  | nil => simp [dictRemove]
  | cons kv rest ih =>
    obtain ⟨k0, v0⟩ := kv
    by_cases hk : k0 = k
    · simp [dictLookup, hk] at h
    · rw [dictLookup, if_neg hk] at h
      simp [dictRemove, hk, ih h]

theorem dictLookup_append_left {β : Type} (l l2 : List (JKey × β)) (k : JKey) :
    dictLookup (l ++ l2) k =
      match dictLookup l k with
      | some v => some v
      | none => dictLookup l2 k := by
  induction l with
  | nil => simp [dictLookup]
  | cons kv rest ih =>
    obtain ⟨k0, v0⟩ := kv
    by_cases hk : k0 = k
    · simp [dictLookup, hk]
    · simp [dictLookup, hk, ih]

theorem objFind_append (l1 l2 : List (String × Json)) (k : String) :
    objFind (l1 ++ l2) k =
      match objFind l1 k with
      | some v => some v
      | none => objFind l2 k := by
  induction l1 with
  | nil => simp [objFind]
  | cons kv rest ih =>
    obtain ⟨k0, v0⟩ := kv
    by_cases h : k0 = k
    · simp [objFind, h]
    · simp [objFind, h, ih]

theorem objFind_map_fresh {β : Type} (l : List (JKey × β)) (f : β → Json) (ip : String)
    (h : ∀ kv ∈ l, jsonKeyStr kv.1 ≠ ip) :
    objFind (l.map (fun kv => (jsonKeyStr kv.1, f kv.2))) ip = none := by
  induction l with
  | nil => rfl
  | cons kv rest ih =>
    simp [objFind, h kv (List.mem_cons_self _ _),
      ih fun x hx => h x (List.mem_cons_of_mem _ hx)]

theorem buildToInsert_some_complete (ip port platform_info : Json) (now : Nat)
    (row : SessionRow)
    (h : buildToInsert ip port platform_info now = some row) :
    platformInfoComplete platform_info = true := by
  unfold buildToInsert at h
  cases h0 : pyToInt port with
  | none => simp [h0] at h
  | some ep =>
  simp only [h0] at h
  cases h1 : jsonLookup platform_info "platform" with
  | none => simp [h1] at h
  | some p =>
  simp only [h1] at h
  cases h2 : jsonLookup platform_info "node" with
  | none => simp [h2] at h
  | some nd =>
  simp only [h2] at h
  cases h3 : jsonLookup platform_info "os" with
  | none => simp [h3] at h
  | some osv =>
  simp only [h3] at h
  cases h4 : jsonLookup osv "system" with
  | none => simp [h4] at h
  | some sys =>
  simp only [h4] at h
  cases h5 : jsonLookup osv "release" with
  | none => simp [h5] at h
  | some rel =>
  simp only [h5] at h
  cases h6 : jsonLookup osv "version" with
  | none => simp [h6] at h
  | some ver =>
  simp only [h6] at h
  cases h7 : jsonLookup platform_info "hardware" with
  | none => simp [h7] at h
  | some hw =>
  simp only [h7] at h
  cases h8 : jsonLookup hw "machine" with
  | none => simp [h8] at h
  | some mach =>
  simp only [h8] at h
  cases h9 : jsonLookup hw "processor" with
  | none => simp [h9] at h
  | some pr =>
  simp only [h9] at h
  cases h10 : jsonLookup platform_info "python" with
  | none => simp [h10] at h
  | some py =>
  simp only [h10] at h
  cases h11 : jsonLookup py "build" with
  | none => simp [h11] at h
  | some bld =>
  simp only [h11] at h
  cases h12 : pyIndex bld 0 with
  | none => simp [h12] at h
  | some b0 =>
  simp only [h12] at h
  cases h13 : pyIndex bld 1 with
  | none => simp [h13] at h
  | some b1 =>
  simp only [h13] at h
  cases h14 : jsonLookup py "compiler" with
  | none => simp [h14] at h
  | some cm =>
  simp only [h14] at h
  cases h15 : jsonLookup py "implementation" with
  | none => simp [h15] at h
  | some im =>
  simp only [h15] at h
  cases h16 : jsonLookup py "version" with
  | none => simp [h16] at h
  | some pv =>
  simp [platformInfoComplete, h1, h2, h3, h4, h5, h6, h7, h8, h9, h10, h11,
    h12, h13, h14, h15, h16]

theorem buildToInsert_of_complete (ip port platform_info : Json) (now : Nat)
    (k : Int) (hport : pyToInt port = some k)
    (hc : platformInfoComplete platform_info = true) :
    ∃ row, buildToInsert ip port platform_info now = some row ∧
      row.session_start = now ∧ row.env_ip = ip ∧ row.env_port = k := by
  simp only [platformInfoComplete, Bool.and_eq_true] at hc
  obtain ⟨⟨⟨⟨⟨⟨⟨⟨⟨⟨⟨h1, h2⟩, h3⟩, h4⟩, h5⟩, h6⟩, h7⟩, h8⟩, h9⟩, h10⟩, h11⟩, h12⟩ := hc
  rw [Option.isSome_iff_exists] at h1 h2 h3 h4 h5 h6 h7 h8 h9 h10 h11 h12
  obtain ⟨p, hp⟩ := h1
  obtain ⟨nd, hnd⟩ := h2
  obtain ⟨sys, hsys⟩ := h3
  obtain ⟨rel, hrel⟩ := h4
  obtain ⟨ver, hver⟩ := h5
  obtain ⟨mach, hmach⟩ := h6
  obtain ⟨pr, hpr⟩ := h7
  obtain ⟨b0, hb0⟩ := h8
  obtain ⟨b1, hb1⟩ := h9
  obtain ⟨cm, hcm⟩ := h10
  obtain ⟨im, him⟩ := h11
  obtain ⟨pv, hpv⟩ := h12
  cases hos : jsonLookup platform_info "os" with
  | none => rw [hos] at hsys; simp at hsys
  | some os =>
  rw [hos] at hsys hrel hver
  simp only [Option.some_bind] at hsys hrel hver
  cases hhw : jsonLookup platform_info "hardware" with
  | none => rw [hhw] at hmach; simp at hmach
  | some hw =>
  rw [hhw] at hmach hpr
  simp only [Option.some_bind] at hmach hpr
  cases hpy : jsonLookup platform_info "python" with
  | none => rw [hpy] at hcm; simp at hcm
  | some py =>
  rw [hpy] at hb0 hb1 hcm him hpv
  simp only [Option.some_bind] at hb0 hb1 hcm him hpv
  cases hbld : jsonLookup py "build" with
  | none => rw [hbld] at hb0; simp at hb0
  | some bld =>
  rw [hbld] at hb0 hb1
  simp only [Option.some_bind] at hb0 hb1
  have hb : buildToInsert ip port platform_info now = some
      { env_ip := ip, env_port := k, env_platform := p, env_node := nd,
        env_os_system := sys, env_os_release := rel, env_os_version := ver,
        env_hw_machine := mach, env_hw_processor := pr,
        env_py_build_no := b0, env_py_build_date := b1,
        env_py_compiler := cm, env_py_implementation := im,
        env_py_version := pv, session_start := now } := by
    simp [buildToInsert, hport, hp, hnd, hos, hsys, hrel, hver, hhw, hmach,
      hpr, hpy, hbld, hb0, hb1, hcm, him, hpv]
  exact ⟨_, hb, rfl, rfl, rfl⟩

/-- Nested lookup in the serialized output of GET /environments: the entry
listed for the given ip and port path strings. -/
def listedSession (envs : List (JKey × List (JKey × EnvEntry))) (ip port : String) :
    Option Json :=
  (jsonLookup (jsonifyEnvironments envs) ip).bind (fun inner => jsonLookup inner port)

/-- Concrete digest function fixture for witnesses. -/
def dOf : List Nat → String := fun _ => "D"

/-- Empty service state fixture. -/
def emptyState : C2State :=
  { environments := [], sessions := [], tests_path := [], available := [] }

/-- Request fixture with matching digest and valid authorization. -/
def mkRequest (mt : String) (body : Option Json) : HttpRequest :=
  { mimetype := mt, digestHeader := some "sha-256=D", hasAuthHeader := true,
    authValid := true, bodyBytes := [], jsonBody := body, files := [] }

/-- A complete platform_info fixture carrying every nested field the
registration handler reads. -/
def piFull : Json :=
  .obj [("platform", .str "Linux"), ("node", .str "host"),
        ("os", .obj [("system", .str "Linux"), ("release", .str "5"),
                     ("version", .str "v1")]),
        ("hardware", .obj [("machine", .str "x86_64"),
                           ("processor", .str "x86_64")]),
        ("python", .obj [("build", .arr [.str "default", .str "today"]),
                         ("compiler", .str "GCC"),
                         ("implementation", .str "CPython"),
                         ("version", .str "3.8.0")])]

/-- C9: a POST /environments request that passes the digest, authorization
and content-type gates and carries the keys ip, port and platform_info, but
whose platform_info lacks one of the nested fields read by the handler,
fails with an uncaught error rendered as a 500 response; no session row is
inserted and the in-memory registry is unchanged, because the failure
happens while building the insert tuple, before the database insert. -/
theorem C9_incomplete_platform_info_500 (digestOf : List Nat → String)
    (req : HttpRequest) (now : Nat) (s : C2State)
    (body ip port platform_info : Json)
    (h1 : check_digest_header digestOf req = none)
    (h2 : check_authorization_header req = none)
    (h3 : check_is_json req = none)
    (h4 : req.jsonBody = some body)
    (h5 : jsonLookup body "ip" = some ip)
    (h6 : jsonLookup body "port" = some port)
    (h7 : jsonLookup body "platform_info" = some platform_info)
    (h8 : platformInfoComplete platform_info = false) :
    add_environment digestOf req now s =
      (errorResponse 500 "Internal Server Error", s) := by
  have hb : buildToInsert ip port platform_info now = none := by
    cases hx : buildToInsert ip port platform_info now with
    | none => rfl
    | some row =>
      have hcm := buildToInsert_some_complete ip port platform_info now row hx
      simp [hcm] at h8
  simp only [add_environment, h1, h2, h3, h4, h5, h6, h7, hb]

theorem C9_incomplete_platform_info_500_witness :
    add_environment dOf
      (mkRequest "application/json"
        (some (.obj [("ip", .str "1.2.3.4"), ("port", .num 8080),
                     ("platform_info", .obj [("platform", .str "Linux")])])))
      0 emptyState =
    (errorResponse 500 "Internal Server Error", emptyState) :=
  C9_incomplete_platform_info_500 dOf _ 0 emptyState _
    (.str "1.2.3.4") (.num 8080) (.obj [("platform", .str "Linux")])
    rfl rfl rfl rfl rfl rfl rfl rfl

/-- C3 (amended): for a POST /environments request that passes the digest
and Node-authorization gates, a content type that is not a JSON type is
answered 415 (not 400); when the content type is JSON but the body fails to
parse, or any of the keys ip, port, platform_info is absent from the parsed
body, the response is 400 with a JSON error body and the state is
unchanged. -/
theorem C3_add_environment_malformed (digestOf : List Nat → String)
    (req : HttpRequest) (now : Nat) (s : C2State)
    (h1 : check_digest_header digestOf req = none)
    (h2 : check_authorization_header req = none) :
    (flask_is_json req.mimetype = false →
      add_environment digestOf req now s =
        (errorResponse 415 "Content Type is not application/json", s)) ∧
    (flask_is_json req.mimetype = true → req.jsonBody = none →
      add_environment digestOf req now s =
        (errorResponse 400 "Failed to decode JSON object", s)) ∧
    (∀ body, flask_is_json req.mimetype = true → req.jsonBody = some body →
      (jsonLookup body "ip" = none ∨ jsonLookup body "port" = none ∨
        jsonLookup body "platform_info" = none) →
      add_environment digestOf req now s =
        (errorResponse 400 "One or more keys missing in request body", s)) := by
  refine ⟨?_, ?_, ?_⟩
  · intro hm
    have hc : check_is_json req =
        some (errorResponse 415 "Content Type is not application/json") := by
      simp [check_is_json, hm]
    simp only [add_environment, h1, h2, hc]
  · intro hm hb
    have hc : check_is_json req = none := by simp [check_is_json, hm]
    simp only [add_environment, h1, h2, hc, hb]
  · intro body hm hb hks
    have hc : check_is_json req = none := by simp [check_is_json, hm]
    rcases hks with hip | hport | hpi
    · simp only [add_environment, h1, h2, hc, hb, hip]
    · cases hip : jsonLookup body "ip" with
      | none => simp only [add_environment, h1, h2, hc, hb, hip]
      | some x => simp only [add_environment, h1, h2, hc, hb, hip, hport]
    · cases hip : jsonLookup body "ip" with
      | none => simp only [add_environment, h1, h2, hc, hb, hip]
      | some x =>
        cases hport : jsonLookup body "port" with
        | none => simp only [add_environment, h1, h2, hc, hb, hip, hport]
        | some y => simp only [add_environment, h1, h2, hc, hb, hip, hport, hpi]

theorem C3_add_environment_malformed_witness :
    add_environment dOf
      (mkRequest "application/json" (some (.obj [("ip", .str "1.2.3.4"),
        ("platform_info", .obj [])]))) 0 emptyState =
    (errorResponse 400 "One or more keys missing in request body", emptyState) :=
  (C3_add_environment_malformed dOf
      (mkRequest "application/json" (some (.obj [("ip", .str "1.2.3.4"),
        ("platform_info", .obj [])]))) 0 emptyState rfl rfl).2.2
    (.obj [("ip", .str "1.2.3.4"), ("platform_info", .obj [])])
    rfl rfl (Or.inr (Or.inl rfl))

/-- C3 counterexample: this request passes the digest and authorization
gates and its body is not JSON (content type text/plain, no parseable JSON
body), yet the response status is 415, not 400 as claimed: the content-type
gate aborts with UnsupportedMediaType before any key check. -/
theorem C3_add_environment_malformed_counterexample :
    check_digest_header dOf (mkRequest "text/plain" none) = none ∧
    check_authorization_header (mkRequest "text/plain" none) = none ∧
    flask_is_json (mkRequest "text/plain" none).mimetype = false ∧
    (mkRequest "text/plain" none).jsonBody = none ∧
    (add_environment dOf (mkRequest "text/plain" none) 0 emptyState).1.status = 415 ∧
    (add_environment dOf (mkRequest "text/plain" none) 0 emptyState).1.status ≠ 400 := by
  refine ⟨rfl, rfl, rfl, rfl, rfl, ?_⟩
  intro h
  rw [show (add_environment dOf (mkRequest "text/plain" none) 0 emptyState).1.status = 415
    from rfl] at h
  exact absurd h (by decide)

theorem check_digest_header_status (digestOf : List Nat → String)
    (req : HttpRequest) (r : Response)
    (h : check_digest_header digestOf req = some r) : r.status = 400 := by
  unfold check_digest_header at h
  split at h
  · obtain rfl := Option.some_inj.mp h
    rfl
  · split at h
    · obtain rfl := Option.some_inj.mp h
      rfl
    · split at h
      · obtain rfl := Option.some_inj.mp h
        rfl
      · exact Option.noConfusion h

/-- C7: a PATCH /test_sets request whose content type is not
multipart/form-data is answered 415 with the state unchanged, whatever its
Digest and Authorization headers; with the multipart content type, a Digest
header that is absent, does not declare sha-256, or does not match the
digest of the body makes the digest gate abort, the handler answer 400 with
that abort response, and the state (in particular the test-set root) stay
unchanged, before any extraction. -/
theorem C7_upload_test_sets_gates (digestOf : List Nat → String)
    (req : HttpRequest) (s : C2State) :
    (req.mimetype ≠ "multipart/form-data" →
      upload_test_sets digestOf req s =
        (errorResponse 415 "Invalid request content type", s)) ∧
    (∀ r, req.mimetype = "multipart/form-data" →
      check_digest_header digestOf req = some r →
      upload_test_sets digestOf req s = (r, s) ∧ r.status = 400) ∧
    (req.digestHeader = none →
      check_digest_header digestOf req =
        some (errorResponse 400 "Digest header mandatory.")) ∧
    (∀ d, req.digestHeader = some d → pyStartswith d "sha-256=" = false →
      check_digest_header digestOf req =
        some (errorResponse 400 "Digest algorithm should be sha-256.")) ∧
    (∀ d, req.digestHeader = some d → pyStartswith d "sha-256=" = true →
      digestOf req.bodyBytes ≠ splitEqTail d →
      check_digest_header digestOf req =
        some (errorResponse 400 "Given digest does not match content.")) := by
  refine ⟨?_, ?_, ?_, ?_, ?_⟩
  · intro hm
    simp only [upload_test_sets, if_pos hm]
  · intro r hm hd
    have hm2 : ¬ req.mimetype ≠ "multipart/form-data" := by simp [hm]
    constructor
    · simp only [upload_test_sets, if_neg hm2, hd]
    · exact check_digest_header_status digestOf req r hd
  · intro hD
    simp [check_digest_header, hD]
  · intro d hD hs
    simp [check_digest_header, hD, hs]
  · intro d hD hs hne
    simp [check_digest_header, hD, hs, hne]

theorem C7_upload_test_sets_gates_witness :
    upload_test_sets dOf (mkRequest "text/plain" none) emptyState =
      (errorResponse 415 "Invalid request content type", emptyState) ∧
    upload_test_sets dOf
      { mkRequest "multipart/form-data" none with digestHeader := some "sha-256=WRONG" }
      emptyState =
      (errorResponse 400 "Given digest does not match content.", emptyState) := by
  constructor
  · exact (C7_upload_test_sets_gates dOf (mkRequest "text/plain" none) emptyState).1
      (by simp [mkRequest])
  · have hgate := (C7_upload_test_sets_gates dOf
      { mkRequest "multipart/form-data" none with digestHeader := some "sha-256=WRONG" }
      emptyState).2.2.2.2 "sha-256=WRONG" rfl rfl (by decide)
    exact ((C7_upload_test_sets_gates dOf
      { mkRequest "multipart/form-data" none with digestHeader := some "sha-256=WRONG" }
      emptyState).2.1 _ rfl hgate).1

theorem add_environment_success (digestOf : List Nat → String) (req : HttpRequest)
    (now : Nat) (s : C2State) (body ip port platform_info : Json)
    (row : SessionRow) (ki kp : JKey)
    (h1 : check_digest_header digestOf req = none)
    (h2 : check_authorization_header req = none)
    (h3 : check_is_json req = none)
    (h4 : req.jsonBody = some body)
    (h5 : jsonLookup body "ip" = some ip)
    (h6 : jsonLookup body "port" = some port)
    (h7 : jsonLookup body "platform_info" = some platform_info)
    (h8 : buildToInsert ip port platform_info now = some row)
    (h9 : toKey ip = some ki)
    (h10 : toKey port = some kp) :
    add_environment digestOf req now s =
      ({ status := 204 },
       { s with sessions := s.sessions ++ [row],
                environments := dictSet s.environments ki
                  (dictSet ((dictLookup s.environments ki).getD []) kp
                    { session_id := s.sessions.length + 1,
                      session_start := strftimeISO now }) }) := by
  simp only [add_environment, h1, h2, h3, h4, h5, h6, h7, h8, h9, h10]

theorem remove_environment_sessions (req : HttpRequest) (ip port : String)
    (s : C2State) : (remove_environment req ip port s).2.sessions = s.sessions := by
  simp only [remove_environment]
  split
  · rfl
  · split
    · rfl
    · rfl

theorem upload_test_sets_sessions (digestOf : List Nat → String)
    (req : HttpRequest) (s : C2State) :
    (upload_test_sets digestOf req s).2.sessions = s.sessions := by
  simp only [upload_test_sets]
  split
  · rfl
  · split
    · rfl
    · split
      · rfl
      · split
        · rfl
        · split
          · rfl
          · rfl

/-- C6: a successful re-registration of an already registered (ip, port)
answers 204, appends exactly one brand-new row to the session table leaving
every previously inserted row unchanged, and unconditionally replaces the
in-memory entry with the fresh session id (the new row position) and fresh
formatted start timestamp; moreover no observed operation other than this
insert touches the session table - removal and upload both preserve it, so
the table is append-only. -/
theorem C6_reregistration_appends (digestOf : List Nat → String)
    (req : HttpRequest) (now : Nat) (s : C2State)
    (body ipJ portJ platform_info : Json) (k : Int) (ki kp : JKey)
    (oldInner : List (JKey × EnvEntry)) (oldEntry : EnvEntry)
    (h1 : check_digest_header digestOf req = none)
    (h2 : check_authorization_header req = none)
    (h3 : check_is_json req = none)
    (h4 : req.jsonBody = some body)
    (h5 : jsonLookup body "ip" = some ipJ)
    (h6 : jsonLookup body "port" = some portJ)
    (h7 : jsonLookup body "platform_info" = some platform_info)
    (h8 : platformInfoComplete platform_info = true)
    (h9 : pyToInt portJ = some k)
    (h10 : toKey ipJ = some ki)
    (h11 : toKey portJ = some kp)
    (h12 : dictLookup s.environments ki = some oldInner)
    (h13 : dictLookup oldInner kp = some oldEntry) :
    (add_environment digestOf req now s).1.status = 204 ∧
    (∃ row, (add_environment digestOf req now s).2.sessions =
        s.sessions ++ [row] ∧ row.session_start = now) ∧
    (∀ i, i < s.sessions.length →
      (add_environment digestOf req now s).2.sessions[i]? = s.sessions[i]?) ∧
    dictLookup ((dictLookup (add_environment digestOf req now s).2.environments
        ki).getD []) kp =
      some { session_id := s.sessions.length + 1,
             session_start := strftimeISO now } ∧
    (∀ r2 ip2 port2, (remove_environment r2 ip2 port2 s).2.sessions = s.sessions) ∧
    (∀ df r2, (upload_test_sets df r2 s).2.sessions = s.sessions) := by
  obtain ⟨row, hrow, hstart, _, _⟩ :=
    buildToInsert_of_complete ipJ portJ platform_info now k h9 h8
  have hadd := add_environment_success digestOf req now s body ipJ portJ
    platform_info row ki kp h1 h2 h3 h4 h5 h6 h7 hrow h10 h11
  rw [hadd]
  refine ⟨rfl, ⟨row, rfl, hstart⟩, ?_, ?_,
    fun r2 ip2 port2 => remove_environment_sessions r2 ip2 port2 s,
    fun df r2 => upload_test_sets_sessions df r2 s⟩
  · intro i hi
    rw [List.getElem?_append]
    exact if_pos hi
  · show dictLookup ((dictLookup (dictSet s.environments ki _) ki).getD []) kp = _
    rw [dictLookup_dictSet_self]
    show dictLookup (dictSet ((dictLookup s.environments ki).getD []) kp _) kp = _
    rw [dictLookup_dictSet_self]

/-- Service state fixture with one registered environment. -/
def oneEnvState : C2State :=
  { environments := [(.str "1.2.3.4", [(.str "8080",
      { session_id := 9, session_start := "former" })])],
    sessions := [], tests_path := [], available := [] }

theorem C6_reregistration_appends_witness :
    (add_environment dOf
      (mkRequest "application/json" (some (.obj [("ip", .str "1.2.3.4"),
        ("port", .str "8080"), ("platform_info", piFull)])))
      5 oneEnvState).1.status = 204 ∧
    (∃ row, (add_environment dOf
      (mkRequest "application/json" (some (.obj [("ip", .str "1.2.3.4"),
        ("port", .str "8080"), ("platform_info", piFull)])))
      5 oneEnvState).2.sessions = [] ++ [row] ∧ row.session_start = 5) ∧
    dictLookup ((dictLookup (add_environment dOf
      (mkRequest "application/json" (some (.obj [("ip", .str "1.2.3.4"),
        ("port", .str "8080"), ("platform_info", piFull)])))
      5 oneEnvState).2.environments (.str "1.2.3.4")).getD [])
      (.str "8080") =
      some { session_id := 1, session_start := strftimeISO 5 } := by
  have h := C6_reregistration_appends dOf
    (mkRequest "application/json" (some (.obj [("ip", .str "1.2.3.4"),
      ("port", .str "8080"), ("platform_info", piFull)])))
    5 oneEnvState
    (.obj [("ip", .str "1.2.3.4"), ("port", .str "8080"),
      ("platform_info", piFull)])
    (.str "1.2.3.4") (.str "8080") piFull 8080
    (.str "1.2.3.4") (.str "8080")
    [(.str "8080", { session_id := 9, session_start := "former" })]
    { session_id := 9, session_start := "former" }
    rfl rfl rfl rfl rfl rfl rfl (by decide) (by decide) rfl rfl rfl rfl
  exact ⟨h.1, h.2.1, h.2.2.2.1⟩

theorem dictLookup_append_of_none {β : Type} (l l2 : List (JKey × β)) (k : JKey)
    (h : dictLookup l k = none) :
    dictLookup (l ++ l2) k = dictLookup l2 k := by
  rw [dictLookup_append_left, h]

theorem jsonKeyStr_str (s : String) : jsonKeyStr (.str s) = s := rfl

theorem listedSession_append_fresh (envs : List (JKey × List (JKey × EnvEntry)))
    (ip : String) (kp : JKey) (port : String) (e : EnvEntry)
    (h : ∀ kv ∈ envs, jsonKeyStr kv.1 ≠ ip)
    (hkp : jsonKeyStr kp = port) :
    listedSession (envs ++ [(.str ip, [(kp, e)])]) ip port =
      some (.obj [("session_id", .num e.session_id),
                  ("session_start", .str e.session_start)]) := by
  unfold listedSession jsonifyEnvironments
  rw [List.map_append]
  simp only [jsonLookup]
  rw [objFind_append, objFind_map_fresh envs _ ip h]
  simp [serializePorts, objFind, jsonLookup, jsonKeyStr_str, hkp]

theorem listedSession_fresh_none (envs : List (JKey × List (JKey × EnvEntry)))
    (ip port : String)
    (h : ∀ kv ∈ envs, jsonKeyStr kv.1 ≠ ip) :
    listedSession envs ip port = none := by
  unfold listedSession jsonifyEnvironments
  simp only [jsonLookup]
  rw [objFind_map_fresh envs _ ip h]
  rfl

theorem remove_environment_last (req2 : HttpRequest) (ip port : String)
    (s1 : C2State) (envs : List (JKey × List (JKey × EnvEntry))) (e : EnvEntry)
    (h8 : check_authorization_header req2 = none)
    (henv : s1.environments = envs ++ [(.str ip, [(.str port, e)])])
    (hfresh : dictLookup envs (.str ip) = none) :
    remove_environment req2 ip port s1 =
      ({ status := 204 }, { s1 with environments := envs }) := by
  have hlook : dictLookup s1.environments (.str ip) = some [(.str port, e)] := by
    rw [henv, dictLookup_append_of_none _ _ _ hfresh]
    simp [dictLookup]
  have hreg : registered s1.environments ip port = true := by
    unfold registered
    rw [hlook]
    simp [dictLookup]
  have hcr : check_registered s1.environments ip port = none := by
    simp [check_registered, hreg]
  have hrm : dictRemove [((JKey.str port), e)] (JKey.str port) = [] := by
    simp [dictRemove]
  unfold remove_environment
  rw [h8, hcr, hlook]
  simp only [Option.getD_some, hrm, List.isEmpty_nil, if_pos]
  rw [henv, dictRemove_append_fresh envs _ _ hfresh]

/-- C2 (amended): for a well-formed, Node-signed, Digest-matching POST
/environments body whose ip is a fresh registry key and whose port value is
a JSON string (required: the environment-scoped routes look the port up by
its string path segment, so a numeric port would make the later DELETE
unreachable - see the counterexample), the response is 204; afterwards GET
/environments lists that (ip, port) with the fresh session id and an
ISO-8601 session_start; a subsequent Node-signed DELETE of that ip and port
returns 204, after which the pair no longer appears in GET /environments. -/
theorem C2_register_list_remove (digestOf : List Nat → String)
    (req req2 : HttpRequest) (now : Nat) (s : C2State) (ip portStr : String)
    (platform_info : Json) (k : Int)
    (h1 : check_digest_header digestOf req = none)
    (h2 : check_authorization_header req = none)
    (h3 : check_is_json req = none)
    (h4 : req.jsonBody = some (.obj [("ip", .str ip), ("port", .str portStr),
            ("platform_info", platform_info)]))
    (h5 : platformInfoComplete platform_info = true)
    (h6 : pyParseInt portStr = some k)
    (h7 : ∀ kv ∈ s.environments, jsonKeyStr kv.1 ≠ ip)
    (h8 : check_authorization_header req2 = none) :
    (add_environment digestOf req now s).1.status = 204 ∧
    listedSession (add_environment digestOf req now s).2.environments ip portStr =
      some (.obj [("session_id", .num (s.sessions.length + 1)),
                  ("session_start", .str (strftimeISO now))]) ∧
    isISO8601Timestamp (strftimeISO now) = true ∧
    (remove_environment req2 ip portStr
        (add_environment digestOf req now s).2).1.status = 204 ∧
    listedSession (remove_environment req2 ip portStr
        (add_environment digestOf req now s).2).2.environments ip portStr =
      none := by
  obtain ⟨row, hrow, hstart, _, _⟩ :=
    buildToInsert_of_complete (.str ip) (.str portStr) platform_info now k h6 h5
  have hlip : dictLookup s.environments (.str ip) = none :=
    dictLookup_none_of_keystr s.environments ip h7
  have hadd := add_environment_success digestOf req now s _ (.str ip)
    (.str portStr) platform_info row (.str ip) (.str portStr) h1 h2 h3 h4
    (by simp [jsonLookup, objFind]) (by simp [jsonLookup, objFind])
    (by simp [jsonLookup, objFind]) hrow rfl rfl
  have henvs1 : (add_environment digestOf req now s).2.environments =
      s.environments ++ [(.str ip,
        [(.str portStr, { session_id := s.sessions.length + 1,
                          session_start := strftimeISO now })])] := by
    rw [hadd]
    show dictSet s.environments (.str ip)
        (dictSet ((dictLookup s.environments (.str ip)).getD []) (.str portStr) _) = _
    rw [hlip]
    exact dictSet_eq_append s.environments _ _ hlip
  have hrem := remove_environment_last req2 ip portStr
    (add_environment digestOf req now s).2 s.environments
    { session_id := s.sessions.length + 1, session_start := strftimeISO now }
    h8 henvs1 hlip
  refine ⟨by rw [hadd], ?_, strftimeISO_shape now, by rw [hrem], ?_⟩
  · rw [henvs1]
    exact listedSession_append_fresh s.environments ip (.str portStr) portStr _ h7 rfl
  · rw [hrem]
    exact listedSession_fresh_none s.environments ip portStr h7

theorem C2_register_list_remove_witness :
    (add_environment dOf (mkRequest "application/json"
      (some (.obj [("ip", .str "1.2.3.4"), ("port", .str "8080"),
                   ("platform_info", piFull)]))) 0 emptyState).1.status = 204 ∧
    listedSession (add_environment dOf (mkRequest "application/json"
      (some (.obj [("ip", .str "1.2.3.4"), ("port", .str "8080"),
                   ("platform_info", piFull)]))) 0 emptyState).2.environments
      "1.2.3.4" "8080" =
      some (.obj [("session_id", .num 1),
                  ("session_start", .str "1970-01-01T00:00:00Z")]) ∧
    (remove_environment (mkRequest "x" none) "1.2.3.4" "8080"
      (add_environment dOf (mkRequest "application/json"
        (some (.obj [("ip", .str "1.2.3.4"), ("port", .str "8080"),
                     ("platform_info", piFull)]))) 0 emptyState).2).1.status = 204 ∧
    listedSession (remove_environment (mkRequest "x" none) "1.2.3.4" "8080"
      (add_environment dOf (mkRequest "application/json"
        (some (.obj [("ip", .str "1.2.3.4"), ("port", .str "8080"),
                     ("platform_info", piFull)]))) 0 emptyState).2).2.environments
      "1.2.3.4" "8080" = none := by
  have h := C2_register_list_remove dOf
    (mkRequest "application/json"
      (some (.obj [("ip", .str "1.2.3.4"), ("port", .str "8080"),
                   ("platform_info", piFull)])))
    (mkRequest "x" none) 0 emptyState "1.2.3.4" "8080" piFull 8080
    rfl rfl rfl rfl (by decide) (by decide) (by simp [emptyState]) rfl
  exact ⟨h.1, h.2.1, h.2.2.2.1, h.2.2.2.2⟩

/-- Body fixture whose port is a JSON number. -/
def bodyNumPort : Json :=
  .obj [("ip", .str "1.2.3.4"), ("port", .num 8080), ("platform_info", piFull)]

/-- C2 counterexample: a body carrying the keys ip, port and platform_info
with a matching digest and valid Node signature, whose port is the JSON
number 8080, registers with 204 - yet the subsequent authorized DELETE
/environments/1.2.3.4/8080 answers 404, not 204 as the claim states,
because the string path segment does not equal the integer registry key. -/
theorem C2_register_list_remove_counterexample :
    check_digest_header dOf (mkRequest "application/json" (some bodyNumPort)) = none ∧
    check_authorization_header (mkRequest "application/json" (some bodyNumPort)) = none ∧
    check_is_json (mkRequest "application/json" (some bodyNumPort)) = none ∧
    (add_environment dOf (mkRequest "application/json" (some bodyNumPort))
      0 emptyState).1.status = 204 ∧
    check_authorization_header (mkRequest "x" none) = none ∧
    (remove_environment (mkRequest "x" none) "1.2.3.4" "8080"
      (add_environment dOf (mkRequest "application/json" (some bodyNumPort))
        0 emptyState).2).1.status = 404 ∧
    (remove_environment (mkRequest "x" none) "1.2.3.4" "8080"
      (add_environment dOf (mkRequest "application/json" (some bodyNumPort))
        0 emptyState).2).1.status ≠ 204 := by
  refine ⟨rfl, rfl, rfl, rfl, rfl, rfl, ?_⟩
  intro h
  rw [show (remove_environment (mkRequest "x" none) "1.2.3.4" "8080"
      (add_environment dOf (mkRequest "application/json" (some bodyNumPort))
        0 emptyState).2).1.status = 404 from rfl] at h
  exact absurd h (by decide)

/-- C8: a registration whose JSON port is a number n (with a fresh ip)
succeeds with 204 and appears in the serialized GET /environments output
under the stringified key, but the string port path segment never equals
the integer registry key, so the pair is not registered for the path
lookup and every environment-scoped route - delete, info, installed,
report - answers 404 for ip and the decimal rendering of n, whatever the
authorization and upstream Node behaviour. -/
theorem C8_numeric_port_unreachable (digestOf : List Nat → String)
    (req req2 : HttpRequest) (now : Nat) (s : C2State) (ip : String) (n : Int)
    (platform_info : Json)
    (h1 : check_digest_header digestOf req = none)
    (h2 : check_authorization_header req = none)
    (h3 : check_is_json req = none)
    (h4 : req.jsonBody = some (.obj [("ip", .str ip), ("port", .num n),
            ("platform_info", platform_info)]))
    (h5 : platformInfoComplete platform_info = true)
    (h7 : ∀ kv ∈ s.environments, jsonKeyStr kv.1 ≠ ip)
    (h8 : check_authorization_header req2 = none) :
    (add_environment digestOf req now s).1.status = 204 ∧
    listedSession (add_environment digestOf req now s).2.environments ip
      (toString n) =
      some (.obj [("session_id", .num (s.sessions.length + 1)),
                  ("session_start", .str (strftimeISO now))]) ∧
    registered (add_environment digestOf req now s).2.environments ip
      (toString n) = false ∧
    remove_environment req2 ip (toString n)
        (add_environment digestOf req now s).2 =
      (errorResponse 404
        ("No environment registered for " ++ ip ++ ":" ++ toString n),
       (add_environment digestOf req now s).2) ∧
    (∀ up, (get_environment_info ip (toString n)
        (add_environment digestOf req now s).2 up).status = 404) ∧
    (∀ up, (list_installed_test_sets ip (toString n)
        (add_environment digestOf req now s).2 up).status = 404) ∧
    (∀ qk up, (execute_tests qk ip (toString n)
        (add_environment digestOf req now s).2 up).status = 404) := by
  obtain ⟨row, hrow, hstart, _, _⟩ :=
    buildToInsert_of_complete (.str ip) (.num n) platform_info now n rfl h5
  have hlip : dictLookup s.environments (.str ip) = none :=
    dictLookup_none_of_keystr s.environments ip h7
  have hadd := add_environment_success digestOf req now s _ (.str ip)
    (.num n) platform_info row (.str ip) (.num n) h1 h2 h3 h4
    (by simp [jsonLookup, objFind]) (by simp [jsonLookup, objFind])
    (by simp [jsonLookup, objFind]) hrow rfl rfl
  have henvs1 : (add_environment digestOf req now s).2.environments =
      s.environments ++ [(.str ip,
        [(.num n, { session_id := s.sessions.length + 1,
                    session_start := strftimeISO now })])] := by
    rw [hadd]
    show dictSet s.environments (.str ip)
        (dictSet ((dictLookup s.environments (.str ip)).getD []) (.num n) _) = _
    rw [hlip]
    exact dictSet_eq_append s.environments _ _ hlip
  have hnotreg : registered (add_environment digestOf req now s).2.environments
      ip (toString n) = false := by
    unfold registered
    rw [henvs1, dictLookup_append_of_none _ _ _ hlip]
    simp [dictLookup]
  have hcr : check_registered (add_environment digestOf req now s).2.environments
      ip (toString n) =
      some (errorResponse 404
        ("No environment registered for " ++ ip ++ ":" ++ toString n)) := by
    simp [check_registered, hnotreg]
  refine ⟨by rw [hadd], ?_, hnotreg, ?_, ?_, ?_, ?_⟩
  · rw [henvs1]
    exact listedSession_append_fresh s.environments ip (.num n) (toString n) _ h7 rfl
  · unfold remove_environment
    rw [h8, hcr]
  · intro up
    unfold get_environment_info
    rw [hcr]
    rfl
  · intro up
    unfold list_installed_test_sets
    rw [hcr]
    rfl
  · intro qk up
    unfold execute_tests
    rw [hcr]
    rfl

theorem C8_numeric_port_unreachable_witness :
    (add_environment dOf (mkRequest "application/json" (some bodyNumPort))
      0 emptyState).1.status = 204 ∧
    listedSession (add_environment dOf (mkRequest "application/json"
      (some bodyNumPort)) 0 emptyState).2.environments "1.2.3.4" "8080" =
      some (.obj [("session_id", .num 1),
                  ("session_start", .str "1970-01-01T00:00:00Z")]) ∧
    registered (add_environment dOf (mkRequest "application/json"
      (some bodyNumPort)) 0 emptyState).2.environments "1.2.3.4" "8080" = false ∧
    (∀ up, (get_environment_info "1.2.3.4" "8080"
      (add_environment dOf (mkRequest "application/json" (some bodyNumPort))
        0 emptyState).2 up).status = 404) := by
  have h := C8_numeric_port_unreachable dOf
    (mkRequest "application/json" (some bodyNumPort)) (mkRequest "x" none)
    0 emptyState "1.2.3.4" 8080 piFull
    rfl rfl rfl rfl (by decide) (by simp [emptyState]) rfl
  exact ⟨h.1, h.2.1, h.2.2.1, h.2.2.2.2.1⟩
